import Mathlib

/-!
Shallow embedding of the Hyperliquid trading bot (`src/app.py`), class
`HyperliquidBot`.  External effects (HTTP responses from the exchange, the
configured secret and signing credential) are modelled by an `Env` record of
oracle values; each operation returns its result together with the list of
network/timing events it performs, in order.  Machine floats are idealised as
exact rationals; Python `round(x, 4)` is modelled as round-half-to-even at
four decimal places on rationals.
-/

namespace HyperliquidBot

/-- Python `str.lower()` (ASCII), written so that it reduces in the kernel. -/
def strLower (s : String) : String := ⟨s.data.map Char.toLower⟩

/-- Python `str.upper()` (ASCII), written so that it reduces in the kernel. -/
def strUpper (s : String) : String := ⟨s.data.map Char.toUpper⟩

/-- Floor of a rational, written out so that it reduces in the kernel. -/
def qfloor (x : ℚ) : ℤ := x.num.fdiv x.den

/-- Python `round(x, 4)`: round half to even at 4 decimal places. -/
def round4 (x : ℚ) : ℚ :=
  let y : ℚ := x * 10000
  let f : ℤ := qfloor y
  let n : ℤ :=
    if y - (f : ℚ) < 1 / 2 then f
    else if 1 / 2 < y - (f : ℚ) then f + 1
    else if f % 2 = 0 then f else f + 1
  (n : ℚ) / 10000

/-- One position entry of the clearinghouse state: `position.coin` and the
signed size `position.szi` (parsed from its string form). -/
structure Position where
  coin : String
  szi : ℚ
deriving DecidableEq, Repr

/-- Parsed JSON body of a successful `clearinghouseState` query.
`assetPositions = none` models a body without the `assetPositions` key;
`withdrawable` is the parsed value of `get(withdrawable, "0")`. -/
structure AccountState where
  withdrawable : ℚ
  assetPositions : Option (List Position)
deriving DecidableEq, Repr

/-- Outcome of one HTTP query for the account state. -/
inductive AccountResp where
  | ok (st : AccountState)
  | httpError
  | exn
deriving DecidableEq, Repr

/-- Outcome of one HTTP query for `allMids` (the price source):
either a parsed list of mid prices, a non-200 response, or an exception
(network error / malformed body). -/
inductive PriceResp where
  | ok (mids : List ℚ)
  | httpError
  | exn
deriving DecidableEq, Repr

/-- Observable events of one operation, in order: a POST to the `/info`
endpoint (with its payload type), a POST to the `/exchange` order-submission
endpoint, or a `time.sleep`. -/
inductive Event where
  | infoRequest (payloadType : String)
  | exchangeRequest
  | sleep (seconds : ℕ)
deriving DecidableEq, Repr

/-- An entry of the `closed_positions` list built by `close_all_positions`. -/
structure ClosedPosition where
  symbol : String
  size : ℚ
  side : String
deriving DecidableEq, Repr

/-- The JSON dict returned by the bot operations.  `status` is the literal
string stored under the `status` key; the remaining fields model the other
keys, `none` when the key is absent in that branch of the source. -/
structure Result where
  status : String
  message : Option String
  closed_positions : Option (List ClosedPosition)
  action : Option String
  symbol : Option String
  size : Option ℚ
deriving DecidableEq, Repr

/-- The dict `\x7b"status": "error", "message": msg\x7d`. -/
def Result.err (msg : String) : Result :=
  ⟨"error", some msg, none, none, none, none⟩

/-- The dict `\x7b"status": "simulated", "message": msg\x7d`. -/
def Result.sim (msg : String) : Result :=
  ⟨"simulated", some msg, none, none, none, none⟩

/-- The dict `\x7b"status": "success", "message": msg\x7d`. -/
def Result.okMsg (msg : String) : Result :=
  ⟨"success", some msg, none, none, none, none⟩

/-- The success dict of `close_all_positions`, with its `closed_positions`
list. -/
def Result.closeOk (msg : String) (cp : List ClosedPosition) : Result :=
  ⟨"success", some msg, some cp, none, none, none⟩

/-- The success dict of `place_order`. -/
def Result.orderOk (act : String) (sz : ℚ) : Result :=
  ⟨"success", none, none, some act, some "ETH", some sz⟩

/-- Oracle environment: configuration and the responses the outside world
gives to each request the bot can make during one `process_signal` call.
`hasAccount` models `self.private_key` being set and `self.account`
successfully created (hence `self.wallet_address` set); when it is false the
bot is in simulation mode. -/
structure Env where
  hasAccount : Bool
  webhookSecret : String
  closeAccountResp : AccountResp
  openAccountResp : AccountResp
  priceResp : PriceResp
  closeSignOk : ℕ → Bool
  closeExchangeOk : ℕ → Bool
  openExchangeOk : Bool
  openSignOk : Bool
  openFailText : String

/-- Embeds `sign_l1_action`: returns the simulation signature without credentials,
otherwise a real signature or `None` when signing raises. -/
def sign_l1_action (hasAccount : Bool) (ok : Bool) : Option String :=
  if hasAccount = false then some "SIMULATION_SIGNATURE"
  else if ok then some "signature" else none

/-- Embeds `get_account_state`: `None` without a wallet address; otherwise the
parsed body on a 200 response and `None` on a non-200 response or
exception. -/
def get_account_state (hasWallet : Bool) (resp : AccountResp) :
    Option AccountState × List Event :=
  if hasWallet = false then (none, [])
  else
    match resp with
    | .ok st => (some st, [Event.infoRequest "clearinghouseState"])
    | .httpError => (none, [Event.infoRequest "clearinghouseState"])
    | .exn => (none, [Event.infoRequest "clearinghouseState"])

/-- Embeds `get_eth_price`: first element of the `allMids` body when present and
strictly positive, else the fallback constant `3000.0`. -/
def get_eth_price (resp : PriceResp) : ℚ × List Event :=
  match resp with
  | .ok mids =>
    match mids with
    | [] => (3000, [Event.infoRequest "allMids"])
    | x :: _ =>
      if 0 < x then (x, [Event.infoRequest "allMids"])
      else (3000, [Event.infoRequest "allMids"])
  | .httpError => (3000, [Event.infoRequest "allMids"])
  | .exn => (3000, [Event.infoRequest "allMids"])

/-- Embeds `calculate_position_size`: `0` for a falsy account state, a balance of at
most `$1`, or a non-positive price; otherwise
`round(withdrawable * 0.99 / eth_price, 4)`. -/
def calculate_position_size (env : Env) (account_state : Option AccountState) :
    ℚ × List Event :=
  match account_state with
  | none => (0, [])
  | some st =>
    let withdrawable := st.withdrawable
    if withdrawable ≤ 1 then (0, [])
    else
      let p := get_eth_price env.priceResp
      if p.1 ≤ 0 then (0, p.2)
      else
        let usable_balance := withdrawable * (99 / 100)
        let position_size := round4 (usable_balance / p.1)
        (position_size, p.2)

/-- Outcome of the per-position loop of `close_all_positions`: either an
early error return because signing failed, or the accumulated
`closed_positions` list; both carry the exchange requests made. -/
inductive CloseLoopOut where
  | signFail (events : List Event)
  | done (closed : List ClosedPosition) (events : List Event)
deriving DecidableEq, Repr

/-- The `for position in assetPositions` loop of `close_all_positions`:
for each `ETH` position whose absolute size exceeds the dust threshold
`0.0001`, sign and submit a reduce-only market order in the opposite
direction; a failed signature aborts with an error, a non-200 submission is
skipped.  `idx` counts the submissions attempted so far. -/
def closeLoop (env : Env) : List Position → ℕ → CloseLoopOut
  | [], _ => .done [] []
  | p :: rest, idx =>
    if p.coin = "ETH" ∧ 1 / 10000 < |p.szi| then
      match sign_l1_action env.hasAccount (env.closeSignOk idx) with
      | none => .signFail []
      | some _ =>
        match closeLoop env rest (idx + 1) with
        | .signFail evs => .signFail (Event.exchangeRequest :: evs)
        | .done closed evs =>
          if env.closeExchangeOk idx then
            .done (⟨"ETH", |p.szi|, if p.szi < 0 then "buy" else "sell"⟩ :: closed)
              (Event.exchangeRequest :: evs)
          else .done closed (Event.exchangeRequest :: evs)
    else closeLoop env rest idx

/-- Embeds `close_all_positions`: simulated without credentials; `success` with
message `No positions to close` when the account state is falsy or lacks
`assetPositions`; otherwise closes every `ETH` position above the dust
threshold and returns the list of positions whose close order got a 200. -/
def close_all_positions (env : Env) : Result × List Event :=
  if env.hasAccount = false then
    (Result.sim "All positions closed (simulation)", [])
  else
    let a := get_account_state env.hasAccount env.closeAccountResp
    match a.1 with
    | none => (Result.okMsg "No positions to close", a.2)
    | some st =>
      match st.assetPositions with
      | none => (Result.okMsg "No positions to close", a.2)
      | some ps =>
        match closeLoop env ps 0 with
        | .signFail evs => (Result.err "Failed to sign close order", a.2 ++ evs)
        | .done closed evs =>
          (Result.closeOk ("Closed " ++ toString closed.length ++ " positions")
            closed, a.2 ++ evs)

/-- Embeds `place_order`: simulated without credentials; error when the account
state cannot be fetched, the computed size is non-positive, or signing fails;
otherwise submits one market order and reports the exchange outcome. -/
def place_order (env : Env) (act : String) : Result × List Event :=
  if env.hasAccount = false then
    (Result.sim (strUpper act ++ " order simulated"), [])
  else
    let a := get_account_state env.hasAccount env.openAccountResp
    match a.1 with
    | none => (Result.err "Could not get account state", a.2)
    | some st =>
      let c := calculate_position_size env (some st)
      let events := a.2 ++ c.2
      if c.1 ≤ 0 then
        (Result.err "Invalid position size - insufficient balance", events)
      else
        match sign_l1_action env.hasAccount env.openSignOk with
        | none => (Result.err "Failed to sign order", events)
        | some _ =>
          let events2 := events ++ [Event.exchangeRequest]
          if env.openExchangeOk then (Result.orderOk act c.1, events2)
          else (Result.err ("Order failed: " ++ env.openFailText), events2)

/-- The webhook body handed to `process_signal`: either not a JSON dict, or
a dict whose `passphrase` / `action` keys may each be absent. -/
structure Alert where
  passphrase : Option String
  action : Option String
deriving DecidableEq, Repr

/-- Input to `validate_webhook` / `process_signal`. -/
inductive WebhookData where
  | notDict
  | dict (alert : Alert)
deriving DecidableEq, Repr

/-- Embeds `validate_webhook`: requires a dict with the configured passphrase and an
action whose lowercase form is `buy`, `sell` or `close`. -/
def validate_webhook (secret : String) (d : WebhookData) : Bool × String :=
  match d with
  | .notDict => (false, "Invalid JSON data")
  | .dict a =>
    match a.passphrase with
    | none => (false, "Missing passphrase")
    | some pp =>
      if pp ≠ secret then (false, "Invalid passphrase")
      else
        match a.action with
        | none => (false, "Missing action")
        | some act =>
          if strLower act = "buy" ∨ strLower act = "sell" ∨ strLower act = "close"
          then (true, "Valid")
          else (false, "Invalid action. Must be one of: [buy, sell, close]")

/-- The value `data[action]` as read by `process_signal` after validation. -/
def dataAction : WebhookData → String
  | .notDict => ""
  | .dict a => a.action.getD ""

/-- Embeds `process_signal`: validate, then dispatch on the lowercased action:
`close` delegates to `close_all_positions`; `buy`/`sell` close all positions,
sleep 2 seconds, then place the order and return its result. -/
def process_signal (env : Env) (d : WebhookData) : Result × List Event :=
  let v := validate_webhook env.webhookSecret d
  if v.1 = false then (Result.err v.2, [])
  else
    let act := strLower (dataAction d)
    if act = "close" then close_all_positions env
    else if act = "buy" ∨ act = "sell" then
      let cr := close_all_positions env
      let pr := place_order env act
      (pr.1, cr.2 ++ [Event.sleep 2] ++ pr.2)
    else (Result.err ("Unknown action: " ++ act), [])

/-- A live-configuration environment: credentials present, secret
`default_secret`, balance `$1000`, no open positions, ETH mid price `$2000`,
all signatures and submissions succeeding. -/
def envA : Env :=
  ⟨true, "default_secret", .ok ⟨1000, some []⟩, .ok ⟨1000, some []⟩,
   .ok [2000], fun _ => true, fun _ => true, true, true, "rejected"⟩

/-- Environment `envA` with no signing credential configured (simulation mode). -/
def envSim : Env :=
  ⟨false, "default_secret", .ok ⟨1000, some []⟩, .ok ⟨1000, some []⟩,
   .ok [2000], fun _ => true, fun _ => true, true, true, "rejected"⟩

/-- Environment `envA` with both account-state queries failing with a non-200
response. -/
def envFail : Env :=
  ⟨true, "default_secret", .httpError, .httpError,
   .ok [2000], fun _ => true, fun _ => true, true, true, "rejected"⟩

/-- The price oracle never returns a non-positive price. -/
theorem get_eth_price_pos (resp : PriceResp) : 0 < (get_eth_price resp).1 := by
  unfold get_eth_price
  rcases resp with mids | _ | _
  · rcases mids with _ | ⟨x, rest⟩
    · norm_num
    · dsimp only
      split
      · assumption
      · norm_num
  · norm_num
  · norm_num

/-- The `status` of every `close_all_positions` result is `success`,
`simulated` or `error`. -/
theorem close_all_statuses (env : Env) :
    (close_all_positions env).1.status = "success" ∨
    (close_all_positions env).1.status = "simulated" ∨
    (close_all_positions env).1.status = "error" := by
  cases hb : env.hasAccount with
  | false => simp [close_all_positions, hb, Result.sim]
  | true =>
    cases hr : env.closeAccountResp with
    | ok st =>
      cases hp : st.assetPositions with
      | none =>
        simp [close_all_positions, get_account_state, hb, hr, hp, Result.okMsg]
      | some ps =>
        cases hcl : closeLoop env ps 0 with
        | signFail evs =>
          simp [close_all_positions, get_account_state, hb, hr, hp, hcl,
            Result.err]
        | done closed evs =>
          simp [close_all_positions, get_account_state, hb, hr, hp, hcl,
            Result.closeOk]
    | httpError =>
      simp [close_all_positions, get_account_state, hb, hr, Result.okMsg]
    | exn =>
      simp [close_all_positions, get_account_state, hb, hr, Result.okMsg]

/-- The `status` of every `place_order` result is `success`, `simulated` or
`error`. -/
theorem place_order_statuses (env : Env) (act : String) :
    (place_order env act).1.status = "success" ∨
    (place_order env act).1.status = "simulated" ∨
    (place_order env act).1.status = "error" := by
  cases hb : env.hasAccount with
  | false => simp [place_order, hb, Result.sim]
  | true =>
    cases hr : env.openAccountResp with
    | ok st =>
      by_cases hc : (calculate_position_size env (some st)).1 ≤ 0
      · simp [place_order, get_account_state, hb, hr, hc, Result.err]
      · cases hs : env.openSignOk with
        | false =>
          simp [place_order, get_account_state, sign_l1_action, hb, hr, hc,
            hs, Result.err]
        | true =>
          cases he : env.openExchangeOk with
          | false =>
            simp [place_order, get_account_state, sign_l1_action, hb, hr,
              hc, hs, he, Result.err]
          | true =>
            simp [place_order, get_account_state, sign_l1_action, hb, hr,
              hc, hs, he, Result.orderOk]
    | httpError =>
      simp [place_order, get_account_state, hb, hr, Result.err]
    | exn =>
      simp [place_order, get_account_state, hb, hr, Result.err]

unseal Rat.mul Rat.inv Rat.add Rat.sub in
/-- C1 (counterexample): with withdrawable balance `b = 0.5 > 0` and price
`p = 2000 > 0`, `calculate_position_size` returns `0`, while
`round(b * 0.99 / p, 4) = 0.0002 ≠ 0`: the claimed formula fails for balances
in `(0, 1]` because of the `withdrawable <= 1` guard. -/
theorem C1_counterexample :
    (calculate_position_size envA (some ⟨1 / 2, some []⟩)).1 = 0 ∧
    0 < (1 : ℚ) / 2 ∧ 0 < (get_eth_price envA.priceResp).1 ∧
    round4 (1 / 2 * (99 / 100) / (get_eth_price envA.priceResp).1) ≠ 0 := by
  decide

/-- C1 (amended): for every withdrawable balance strictly above the `$1`
minimum, `calculate_position_size` returns exactly
`round(withdrawable * 0.99 / price, 4)` for the price the oracle returned
(which is always positive). -/
theorem C1_position_size_formula (env : Env) (st : AccountState)
    (h : 1 < st.withdrawable) :
    (calculate_position_size env (some st)).1 =
      round4 (st.withdrawable * (99 / 100) / (get_eth_price env.priceResp).1) := by
  have h1 : ¬ st.withdrawable ≤ 1 := not_le.mpr h
  have h2 : ¬ (get_eth_price env.priceResp).1 ≤ 0 :=
    not_le.mpr (get_eth_price_pos env.priceResp)
  simp [calculate_position_size, h1, h2]

unseal Rat.mul Rat.inv Rat.add Rat.sub in
/-- Witness for C1: the formula at balance `$1000`, price `$2000`. -/
theorem C1_position_size_formula_witness :
    (1 : ℚ) < 1000 ∧
    (calculate_position_size envA (some ⟨1000, some []⟩)).1 =
      round4 ((1000 : ℚ) * (99 / 100) / (get_eth_price envA.priceResp).1) :=
  ⟨by decide, C1_position_size_formula envA ⟨1000, some []⟩ (by decide)⟩

unseal Rat.mul Rat.inv Rat.add Rat.sub in
/-- C2 (counterexample): a buy signal with balance `$1000` and price `$2000`
yields order size `round(1000 * 0.99 / 2000, 4) = 0.495`, not
`round(1000 * 0.95 / 2000, 4) = 0.475`: this implementation uses the `0.99`
utilization fraction, not `0.95`. -/
theorem C2_counterexample :
    (process_signal envA (.dict ⟨some "default_secret", some "buy"⟩)).1.size =
      some (99 / 200) ∧
    round4 (1000 * (95 / 100) / 2000) = 475 / 1000 ∧
    ((99 : ℚ) / 200) ≠ 475 / 1000 := by
  decide

unseal Rat.mul Rat.inv Rat.add Rat.sub in
/-- C2 (amended): for a buy signal with account balance `$1000` and price
`$2000`, the computed order size equals
`round(1000 * 0.99 / 2000, 4) = 0.495`. -/
theorem C2_buy_order_size :
    (process_signal envA (.dict ⟨some "default_secret", some "buy"⟩)).1.size =
      some (round4 (1000 * (99 / 100) / 2000)) ∧
    round4 (1000 * (99 / 100) / 2000) = 99 / 200 := by
  decide

/-- C9: `get_eth_price` returns the first strictly-positive value obtained
from its source, and the fixed fallback constant `3000.0` whenever the
source fails or yields a non-positive value; the returned price is always
strictly positive. -/
theorem C9_price_oracle (resp : PriceResp) :
    0 < (get_eth_price resp).1 ∧
    ((∃ x xs, resp = .ok (x :: xs) ∧ 0 < x ∧ (get_eth_price resp).1 = x) ∨
      (get_eth_price resp).1 = 3000) := by
  refine ⟨get_eth_price_pos resp, ?_⟩
  unfold get_eth_price
  rcases resp with mids | _ | _
  · rcases mids with _ | ⟨x, rest⟩
    · right; rfl
    · dsimp only
      by_cases hx : 0 < x
      · exact Or.inl ⟨x, rest, rfl, hx, by rw [if_pos hx]⟩
      · right; rw [if_neg hx]
  · right; rfl
  · right; rfl

unseal Rat.mul Rat.inv Rat.add Rat.sub in
/-- C3 (counterexample): when the account-state query fails (here: non-200
response), the caller `close_all_positions` returns a Result with status
`success`, not `error`: the claim that every caller converts the failure into
an error-status Result is false. -/
theorem C3_counterexample :
    (close_all_positions envFail).1.status = "success" ∧
    (close_all_positions envFail).1.status ≠ "error" := by
  decide

/-- C3 (amended): when the account-state query fails (non-200 or exception),
`place_order` converts the failure into an error-status Result, while
`close_all_positions` converts it into a success-status Result with message
`No positions to close`; neither caller proceeds with partially-populated
account data — no order submission is attempted by either. -/
theorem C3_account_failure_handling (env : Env) (act : String)
    (hb : env.hasAccount = true)
    (hc : env.closeAccountResp = .httpError ∨ env.closeAccountResp = .exn)
    (ho : env.openAccountResp = .httpError ∨ env.openAccountResp = .exn) :
    (close_all_positions env).1 = Result.okMsg "No positions to close" ∧
    (place_order env act).1 = Result.err "Could not get account state" ∧
    Event.exchangeRequest ∉ (close_all_positions env).2 ∧
    Event.exchangeRequest ∉ (place_order env act).2 := by
  rcases hc with hc | hc <;> rcases ho with ho | ho <;>
    simp [close_all_positions, place_order, get_account_state, hb, hc, ho]

/-- Witness for C3 (amended) at the concrete failing environment. -/
theorem C3_account_failure_handling_witness :
    (close_all_positions envFail).1 = Result.okMsg "No positions to close" ∧
    (place_order envFail "buy").1 = Result.err "Could not get account state" ∧
    Event.exchangeRequest ∉ (close_all_positions envFail).2 ∧
    Event.exchangeRequest ∉ (place_order envFail "buy").2 :=
  C3_account_failure_handling envFail "buy" rfl (Or.inl rfl) (Or.inl rfl)

/-- Helper: the close loop ignores every position that is not an `ETH`
position above the dust threshold. -/
theorem closeLoop_all_dust (env : Env) (ps : List Position) (idx : ℕ)
    (h : ∀ p ∈ ps, ¬(p.coin = "ETH" ∧ 1 / 10000 < |p.szi|)) :
    closeLoop env ps idx = .done [] [] := by
  induction ps generalizing idx with
  | nil => rfl
  | cons p rest ih =>
    have hp := h p (List.mem_cons_self p rest)
    rw [closeLoop, if_neg hp]
    exact ih idx (fun q hq => h q (List.mem_cons_of_mem p hq))

/-- C7: whenever the fetched account state has no `ETH` position above the
dust threshold `0.0001` — in particular in the state reached after a
previous `close_all_positions` call fully closed everything —
`close_all_positions` returns a success Result with an empty
`closed_positions` list, and submits no order (the only network event is the
account-state query). -/
theorem C7_close_all_no_positions (env : Env) (st : AccountState)
    (ps : List Position)
    (hb : env.hasAccount = true)
    (hr : env.closeAccountResp = .ok st)
    (hps : st.assetPositions = some ps)
    (hdust : ∀ p ∈ ps, p.coin = "ETH" → |p.szi| ≤ 1 / 10000) :
    close_all_positions env =
      (Result.closeOk "Closed 0 positions" [],
        [Event.infoRequest "clearinghouseState"]) ∧
    Event.exchangeRequest ∉ (close_all_positions env).2 := by
  have hloop : closeLoop env ps 0 = .done [] [] := by
    refine closeLoop_all_dust env ps 0 (fun p hp hand => ?_)
    exact absurd hand.2 (not_lt.mpr (hdust p hp hand.1))
  constructor
  · simp [close_all_positions, get_account_state, hb, hr, hps, hloop]
    decide
  · simp [close_all_positions, get_account_state, hb, hr, hps, hloop]

unseal Rat.mul Rat.inv Rat.add Rat.sub in
/-- Witness for C7: an account whose positions are a dust `ETH` position and
a non-`ETH` position. -/
theorem C7_close_all_no_positions_witness :
    close_all_positions
        ⟨true, "default_secret",
          .ok ⟨1000, some [⟨"ETH", 1 / 20000⟩, ⟨"BTC", 5⟩]⟩,
          .ok ⟨1000, some []⟩, .ok [2000], fun _ => true, fun _ => true,
          true, true, "rejected"⟩ =
      (Result.closeOk "Closed 0 positions" [],
        [Event.infoRequest "clearinghouseState"]) ∧
    Event.exchangeRequest ∉
      (close_all_positions
        ⟨true, "default_secret",
          .ok ⟨1000, some [⟨"ETH", 1 / 20000⟩, ⟨"BTC", 5⟩]⟩,
          .ok ⟨1000, some []⟩, .ok [2000], fun _ => true, fun _ => true,
          true, true, "rejected"⟩).2 :=
  C7_close_all_no_positions _ ⟨1000, some [⟨"ETH", 1 / 20000⟩, ⟨"BTC", 5⟩]⟩
    [⟨"ETH", 1 / 20000⟩, ⟨"BTC", 5⟩] rfl rfl rfl (by decide)

/-- C8: with no signing credential configured, `close_all_positions` and
`place_order` return a `simulated`-status Result and perform no network
events at all — in particular they never POST to the order-submission
endpoint. -/
theorem C8_simulation_no_network (env : Env) (act : String)
    (h : env.hasAccount = false) :
    close_all_positions env =
      (Result.sim "All positions closed (simulation)", []) ∧
    place_order env act = (Result.sim (strUpper act ++ " order simulated"), []) ∧
    Event.exchangeRequest ∉ (close_all_positions env).2 ∧
    Event.exchangeRequest ∉ (place_order env act).2 := by
  refine ⟨?_, ?_, ?_, ?_⟩ <;> simp [close_all_positions, place_order, h]

/-- Witness for C8 in the credential-less environment. -/
theorem C8_simulation_no_network_witness :
    close_all_positions envSim =
      (Result.sim "All positions closed (simulation)", []) ∧
    place_order envSim "buy" =
      (Result.sim (strUpper "buy" ++ " order simulated"), []) ∧
    Event.exchangeRequest ∉ (close_all_positions envSim).2 ∧
    Event.exchangeRequest ∉ (place_order envSim "buy").2 :=
  C8_simulation_no_network envSim "buy" rfl

/-- C4: for every authenticated alert whose action lowercases to `buy` or
`sell`, `process_signal` performs the events of `close_all_positions`, then
`time.sleep(2)`, then the events of `place_order`, and its result is exactly
the `place_order` result — the close-all result never influences the status
of the overall response. -/
theorem C4_close_then_sleep_then_open (env : Env) (a : Alert) (s : String)
    (hp : a.passphrase = some env.webhookSecret)
    (ha : a.action = some s)
    (hs : strLower s = "buy" ∨ strLower s = "sell") :
    process_signal env (.dict a) =
      ((place_order env (strLower s)).1,
        (close_all_positions env).2 ++ [Event.sleep 2] ++
          (place_order env (strLower s)).2) := by
  rcases a with ⟨pp, act⟩
  simp only at hp ha
  subst hp
  subst ha
  rcases hs with h | h <;>
    simp [process_signal, validate_webhook, dataAction, h]

/-- Witness for C4 with the uppercase `BUY` alert in `envA`. -/
theorem C4_close_then_sleep_then_open_witness :
    process_signal envA (.dict ⟨some "default_secret", some "BUY"⟩) =
      ((place_order envA (strLower "BUY")).1,
        (close_all_positions envA).2 ++ [Event.sleep 2] ++
          (place_order envA (strLower "BUY")).2) :=
  C4_close_then_sleep_then_open envA ⟨some "default_secret", some "BUY"⟩
    "BUY" rfl rfl (Or.inl (by decide))

/-- C5: every `process_signal` result carries a `status` that is `success`,
`simulated` or `error`: every branch, including every failure path, produces
such a Result. -/
theorem C5_result_status_total (env : Env) (d : WebhookData) :
    (process_signal env d).1.status = "success" ∨
    (process_signal env d).1.status = "simulated" ∨
    (process_signal env d).1.status = "error" := by
  by_cases hv : (validate_webhook env.webhookSecret d).1 = false
  · simp [process_signal, hv, Result.err]
  · by_cases hc : strLower (dataAction d) = "close"
    · simpa [process_signal, hv, hc] using close_all_statuses env
    · by_cases hbs : strLower (dataAction d) = "buy" ∨
          strLower (dataAction d) = "sell"
      · simpa [process_signal, hv, hc, hbs] using
          place_order_statuses env (strLower (dataAction d))
      · simp [process_signal, hv, hc, hbs, Result.err]

/-- C6: an alert whose `passphrase` is absent or different from the
configured secret makes `process_signal` return an error-status Result with
no network or timing event at all: the exchange is never contacted. -/
theorem C6_auth_failure_no_network (env : Env) (a : Alert)
    (h : a.passphrase = none ∨
      ∀ pp, a.passphrase = some pp → pp ≠ env.webhookSecret) :
    (process_signal env (.dict a)).1.status = "error" ∧
    (process_signal env (.dict a)).2 = [] := by
  rcases a with ⟨pp, act⟩
  rcases h with h | h
  · simp only at h
    subst h
    simp [process_signal, validate_webhook, Result.err]
  · cases pp with
    | none => simp [process_signal, validate_webhook, Result.err]
    | some p =>
      have hne : p ≠ env.webhookSecret := h p rfl
      simp [process_signal, validate_webhook, hne, Result.err]

/-- Witness for C6: an alert with no passphrase field. -/
theorem C6_auth_failure_no_network_witness :
    (process_signal envA (.dict ⟨none, some "buy"⟩)).1.status = "error" ∧
    (process_signal envA (.dict ⟨none, some "buy"⟩)).2 = [] :=
  C6_auth_failure_no_network envA ⟨none, some "buy"⟩ (Or.inl rfl)

/-- C10: action matching is case-insensitive: an authenticated alert whose
action lowercases to `buy`, `sell` or `close` passes validation, and
`process_signal` treats it exactly as the corresponding lowercase action. -/
theorem C10_case_insensitive_action (env : Env) (s : String)
    (hs : strLower s = "buy" ∨ strLower s = "sell" ∨ strLower s = "close") :
    validate_webhook env.webhookSecret
        (.dict ⟨some env.webhookSecret, some s⟩) = (true, "Valid") ∧
    process_signal env (.dict ⟨some env.webhookSecret, some s⟩) =
      process_signal env (.dict ⟨some env.webhookSecret, some (strLower s)⟩) := by
  have hb : strLower "buy" = "buy" := by decide
  have hse : strLower "sell" = "sell" := by decide
  have hcl : strLower "close" = "close" := by decide
  rcases hs with h | h | h <;>
    constructor <;>
    simp [validate_webhook, process_signal, dataAction, h, hb, hse, hcl]

/-- Witness for C10 at the uppercase `BUY` alert. -/
theorem C10_case_insensitive_action_witness :
    validate_webhook envA.webhookSecret
        (.dict ⟨some envA.webhookSecret, some "BUY"⟩) = (true, "Valid") ∧
    process_signal envA (.dict ⟨some envA.webhookSecret, some "BUY"⟩) =
      process_signal envA
        (.dict ⟨some envA.webhookSecret, some (strLower "BUY")⟩) :=
  C10_case_insensitive_action envA "BUY" (Or.inl (by decide))

end HyperliquidBot
